import Mathlib

/-!
Verification of the ResQ patient-transfer coordination core (`src/app-done.py`).

We shallowly embed the shared state (`SharedSystemState`), the
matching/allocation logic (`find_best_hospital`, `update_beds`), the triage
response parsing (`json.loads` applied to the fence-stripped model output),
and the seven presentation-layer operations (the Streamlit button handlers)
as pure Lean functions, and prove or refute the specification claims about
them.

Conventions:
* Python `int` is `Int` (unbounded, may go negative).
* Python `dict` iteration order is insertion order, so the hospital registry
  is an association list `List (String × Hospital)`.
* Python values of mixed type (vitals that may be a string "N/A" or a
  number) are modelled by `PyVal`.
* A raised-and-uncaught exception inside a Streamlit callback aborts the
  script rerun; mutations already performed persist, later statements do not
  run.  Handlers therefore appear below as functions that stop mutating at
  the first point where the Python code would raise.
* Latitude/longitude fields and the GPS relocation helper are omitted: they
  are floats never read or written by any of the seven modelled operations.
-/

/-- A JSON value as produced by Python's `json.loads`.  Floating point
literals are outside the model (our parser rejects them); every other JSON
construct the program can receive is covered. -/
inductive JVal where
  | jnull : JVal
  | jbool : Bool → JVal
  | jint : Int → JVal
  | jstr : String → JVal
  | jarr : List JVal → JVal
  | jobj : List (String × JVal) → JVal

/-- Python `v == s` for a string literal `s`: string equality when `v` is a
string, `False` for every other type (Python cross-type equality). -/
def JVal.eqStr (v : JVal) (s : String) : Bool :=
  match v with
  | JVal.jstr s2 => s2 = s
  | _ => false

/-- Python dict lookup on a parsed JSON object (keys are unique because the
parser builds objects with replace-on-duplicate semantics). -/
def jLookup (kvs : List (String × JVal)) (k : String) : Option JVal :=
  match kvs with
  | [] => none
  | (k2, v) :: rest => if k2 = k then some v else jLookup rest k

/-- Python `True`/`False`/ints are usable in `<`/`>` comparisons against an
int; strings, `None`, lists and dicts raise `TypeError`. -/
def JVal.intLike : JVal → Bool
  | JVal.jint _ => true
  | JVal.jbool _ => true
  | _ => false

/-- Insert with Python-dict semantics: replace the value in place if the key
exists, else append. -/
def setKey (kvs : List (String × JVal)) (k : String) (v : JVal) :
    List (String × JVal) :=
  match kvs with
  | [] => [(k, v)]
  | (k2, v2) :: rest =>
    if k2 = k then (k2, v) :: rest else (k2, v2) :: setKey rest k v

/-- Build a Python dict from members in source order: a duplicate key keeps
its first position and takes its last value. -/
def buildObj (members : List (String × JVal)) : List (String × JVal) :=
  members.foldl (fun acc kv => setKey acc kv.1 kv.2) []

/-! ### Python string helpers (`str.replace`, `str.strip`) -/

/-- Test whether `pat` is a prefix of the second list. -/
def startsWithPat : List Char → List Char → Bool
  | [], _ => true
  | _ :: _, [] => false
  | p :: ps, c :: cs => p = c && startsWithPat ps cs

/-- One fuel-indexed pass of Python `str.replace(pat, "")` restricted to a
nonempty pattern (the program only removes the fences "```json" and "```"):
non-overlapping occurrences are deleted left to right. -/
def pyReplaceAux (pat : List Char) : Nat → List Char → List Char
  | _, [] => []
  | 0, cs => cs
  | fuel + 1, c :: cs =>
    if startsWithPat pat (c :: cs) then
      pyReplaceAux pat fuel (List.drop pat.length (c :: cs))
    else
      c :: pyReplaceAux pat fuel cs

/-- Python `s.replace(pat, "")` for a nonempty `pat`. -/
def pyReplace (cs pat : List Char) : List Char :=
  pyReplaceAux pat cs.length cs

/-- Python `str.isspace` characters relevant to `str.strip()`. -/
def pyIsSpace (c : Char) : Bool :=
  c = ' ' || c = '\t' || c = '\n' || c = '\r' || c = '\x0b' || c = '\x0c'

/-- Python `s.strip()`. -/
def pyStrip (cs : List Char) : List Char :=
  ((cs.dropWhile pyIsSpace).reverse.dropWhile pyIsSpace).reverse

/-! ### `json.loads`, fuel-indexed

JSON whitespace is space, tab, newline, carriage return.  Strings support
the standard single-character escapes; `\uXXXX` escapes and float literals
are outside the model and parse as failures. -/

def jsonSkipWs : List Char → List Char
  | [] => []
  | c :: cs =>
    if c = ' ' || c = '\t' || c = '\n' || c = '\r' then jsonSkipWs cs
    else c :: cs

/-- Consume an expected literal such as `ull` (after the `n` of `null`). -/
def dropLit : List Char → List Char → Option (List Char)
  | [], cs => some cs
  | _ :: _, [] => none
  | p :: ps, c :: cs => if p = c then dropLit ps cs else none

/-- Parse the body of a JSON string after the opening quote; returns the
decoded characters and the rest of the input after the closing quote. -/
def parseStrBody : Nat → List Char → Option (List Char × List Char)
  | 0, _ => none
  | _ + 1, [] => none
  | fuel + 1, c :: cs =>
    if c = '"' then some ([], cs)
    else if c = '\\' then
      match cs with
      | [] => none
      | e :: cs2 =>
        let dec : Option Char :=
          if e = '"' then some '"'
          else if e = '\\' then some '\\'
          else if e = '/' then some '/'
          else if e = 'n' then some '\n'
          else if e = 't' then some '\t'
          else if e = 'r' then some '\r'
          else if e = 'b' then some (Char.ofNat 8)
          else if e = 'f' then some (Char.ofNat 12)
          else none
        match dec with
        | some d =>
          match parseStrBody fuel cs2 with
          | some (body, rest) => some (d :: body, rest)
          | none => none
        | none => none
    else
      match parseStrBody fuel cs with
      | some (body, rest) => some (c :: body, rest)
      | none => none

def takeDigits (cs : List Char) : List Char × List Char :=
  (cs.takeWhile Char.isDigit, cs.dropWhile Char.isDigit)

def digitsToNat (ds : List Char) : Nat :=
  ds.foldl (fun a c => a * 10 + (c.toNat - 48)) 0

/-- Parse a JSON integer (optional minus, digit run, not followed by a
fraction or exponent, which would make it a float — unmodelled). -/
def parseIntLit (cs : List Char) : Option (Int × List Char) :=
  let (neg, cs2) :=
    match cs with
    | '-' :: rest => (true, rest)
    | _ => (false, cs)
  let (ds, rest) := takeDigits cs2
  if ds = [] then none
  else
    match rest with
    | '.' :: _ => none
    | 'e' :: _ => none
    | 'E' :: _ => none
    | _ =>
      let n : Int := Int.ofNat (digitsToNat ds)
      some (if neg then (-n, rest) else (n, rest))

mutual

/-- Parse one JSON value (leading whitespace allowed). -/
def parseVal : Nat → List Char → Option (JVal × List Char)
  | 0, _ => none
  | fuel + 1, cs =>
    match jsonSkipWs cs with
    | [] => none
    | c :: rest =>
      if c = 'n' then
        match dropLit ['u', 'l', 'l'] rest with
        | some r => some (JVal.jnull, r)
        | none => none
      else if c = 't' then
        match dropLit ['r', 'u', 'e'] rest with
        | some r => some (JVal.jbool true, r)
        | none => none
      else if c = 'f' then
        match dropLit ['a', 'l', 's', 'e'] rest with
        | some r => some (JVal.jbool false, r)
        | none => none
      else if c = '"' then
        match parseStrBody (fuel + 1) rest with
        | some (body, r) => some (JVal.jstr (String.mk body), r)
        | none => none
      else if c = '[' then
        match jsonSkipWs rest with
        | ']' :: r => some (JVal.jarr [], r)
        | _ =>
          match parseArrTail fuel rest with
          | some (vs, r) => some (JVal.jarr vs, r)
          | none => none
      else if c = '{' then
        match jsonSkipWs rest with
        | '}' :: r => some (JVal.jobj [], r)
        | _ =>
          match parseObjTail fuel rest with
          | some (kvs, r) => some (JVal.jobj (buildObj kvs), r)
          | none => none
      else
        match parseIntLit (c :: rest) with
        | some (n, r) => some (JVal.jint n, r)
        | none => none

/-- Parse the elements of a nonempty array after `[`. -/
def parseArrTail : Nat → List Char → Option (List JVal × List Char)
  | 0, _ => none
  | fuel + 1, cs =>
    match parseVal fuel cs with
    | none => none
    | some (v, rest) =>
      match jsonSkipWs rest with
      | ',' :: r2 =>
        match parseArrTail fuel r2 with
        | some (vs, r3) => some (v :: vs, r3)
        | none => none
      | ']' :: r2 => some ([v], r2)
      | _ => none

/-- Parse the members of a nonempty object after `{`, in source order
(duplicates possible at this stage). -/
def parseObjTail : Nat → List Char → Option (List (String × JVal) × List Char)
  | 0, _ => none
  | fuel + 1, cs =>
    match jsonSkipWs cs with
    | '"' :: r =>
      match parseStrBody (fuel + 1) r with
      | none => none
      | some (key, r2) =>
        match jsonSkipWs r2 with
        | ':' :: r3 =>
          match parseVal fuel r3 with
          | none => none
          | some (v, r4) =>
            match jsonSkipWs r4 with
            | ',' :: r5 =>
              match parseObjTail fuel r5 with
              | some (kvs, r6) => some ((String.mk key, v) :: kvs, r6)
              | none => none
            | '}' :: r5 => some ([(String.mk key, v)], r5)
            | _ => none
        | _ => none
    | _ => none

end

/-- Python `json.loads` on a character list: one value, then only trailing
whitespace. -/
def jsonLoadsChars (cs : List Char) : Option JVal :=
  match parseVal (3 * cs.length + 3) cs with
  | some (v, rest) => if jsonSkipWs rest = [] then some v else none
  | none => none

/-- The fence-stripping performed on the model response before parsing:
`response.text.replace("```json", "").replace("```", "").strip()`. -/
def cleanResponse (text : String) : List Char :=
  pyStrip (pyReplace (pyReplace text.data "```json".data) "```".data)

/-- The triage parse step of the EXECUTE CLINICAL DIAGNOSTICS handler:
`json.loads` of the fence-stripped response; `none` models the raised
exception caught by the surrounding `try`. -/
def parseTriage (text : String) : Option JVal :=
  jsonLoadsChars (cleanResponse text)

/-! ### Data model (`SharedSystemState`, mock EMR) -/

/-- A Python value that is either a string or an int (the program stores
"N/A" strings in numeric vitals slots and "Unknown" in the age slot). -/
inductive PyVal where
  | s : String → PyVal
  | i : Int → PyVal
  deriving DecidableEq

/-- One entry of `SharedSystemState.hospitals`.  The float `lat`/`lon`
fields are omitted: no modelled operation reads or writes them. -/
structure Hospital where
  specialty : String
  dist : Int
  icu_beds : Int
  op_beds : Int
  deriving DecidableEq

/-- The `live_vitals` sub-record of the mission. -/
structure Vitals where
  bp : PyVal
  hr : PyVal
  spo2 : PyVal
  deriving DecidableEq

/-- A patient record from the mock EMR database, or the placeholder. -/
structure Patient where
  name : String
  age : PyVal
  blood : Option String
  history : Option String
  allergies : Option String
  deriving DecidableEq

/-- The four values the `mission["status"]` string takes. -/
inductive Status where
  | IDLE
  | PENDING
  | ACTIVE
  | DECLINED
  deriving DecidableEq

/-- The `mission` dict.  `ai_analysis` holds the raw object returned by the
triage parse step (an arbitrary JSON value: the code never validates it).
The `ambulance_loc` float pair is omitted: no modelled operation touches
it. -/
structure Mission where
  status : Status
  target_hospital : Option String
  patient_data : Option Patient
  ai_analysis : Option JVal
  live_vitals : Vitals
  telemetry_alert : String

/-- The whole shared state: `SharedSystemState` plus the
`st.session_state.analysis_result` cache that gates the candidate list. -/
structure SysState where
  hospitals : List (String × Hospital)
  mission : Mission
  declined_hospitals : List (Option String)
  analysis_result : Option JVal

/-- Association-list lookup on the registry: Python `dict[name]`, `none`
standing for a `KeyError`. -/
def lookupReg : List (String × Hospital) → String → Option Hospital
  | [], _ => none
  | (n, h) :: rest, k => if n = k then some h else lookupReg rest k

/-- Association-list lookup in the mock EMR database. -/
def lookupEmr : List (String × Patient) → String → Option Patient
  | [], _ => none
  | (n, p) :: rest, k => if n = k then some p else lookupEmr rest k

/-- The three hospitals created in `SharedSystemState.__init__`. -/
def initHospitals : List (String × Hospital) :=
  [("City General Trauma",
     { specialty := "Level 1 Trauma", dist := 5, icu_beds := 2, op_beds := 15 }),
   ("Metropolitan Heart",
     { specialty := "Cardiology Center", dist := 12, icu_beds := 8, op_beds := 5 }),
   ("Suburban Clinic",
     { specialty := "General Care", dist := 3, icu_beds := 0, op_beds := 20 })]

/-- The initial shared state built by `SharedSystemState.__init__` (plus the
empty per-session analysis cache). -/
def initState : SysState :=
  { hospitals := initHospitals,
    mission :=
      { status := Status.IDLE,
        target_hospital := none,
        patient_data := none,
        ai_analysis := none,
        live_vitals := { bp := PyVal.s "120/80", hr := PyVal.i 80, spo2 := PyVal.i 98 },
        telemetry_alert := "Stable" },
    declined_hospitals := [],
    analysis_result := none }

/-- The mock EMR database `emr_database`. -/
def emr_database : List (String × Patient) :=
  [("P-101",
     { name := "Alex Mercer", age := PyVal.i 58, blood := some "O+",
       history := some "Hypertension", allergies := some "Penicillin" }),
   ("P-102",
     { name := "Sarah Connor", age := PyVal.i 34, blood := some "A+",
       history := some "Asthma", allergies := some "None" })]

/-- The placeholder stored when no EMR record was found:
`{"name": "Unidentified", "age": "Unknown"}`. -/
def unidentifiedPatient : Patient :=
  { name := "Unidentified", age := PyVal.s "Unknown",
    blood := none, history := none, allergies := none }

/-! ### Matching/allocation logic -/

/-- The eligibility test of `find_best_hospital`: the first loop branch
fires iff `required_ward == "ICU"` and `icu_beds > 0`, the `elif` iff
`required_ward == "OP"` and `op_beds > 0`; anything else is skipped. -/
def hasCapacity (required_ward : JVal) (p : String × Hospital) : Bool :=
  if required_ward.eqStr "ICU" then decide (0 < p.2.icu_beds)
  else if required_ward.eqStr "OP" then decide (0 < p.2.op_beds)
  else false

/-- `find_best_hospital(required_ward)`: filter the registry in iteration
(= insertion) order by `hasCapacity`, then sort ascending by the static
`dist` field.  Python's `sorted` is a stable sort, modelled by
`List.insertionSort` (stable, see `List.sublist_insertionSort`). -/
def find_best_hospital (required_ward : JVal) (hospitals : List (String × Hospital)) :
    List (String × Hospital) :=
  (hospitals.filter (hasCapacity required_ward)).insertionSort
    (fun a b => a.2.dist ≤ b.2.dist)

/-- The branch of `SharedSystemState.update_beds` on the ward value:
decrement `icu_beds` when `ward_type == "ICU"`, and `op_beds` for EVERY
other value of `ward_type` — there is no validation and no lower bound. -/
def decBed (ward_type : JVal) (h : Hospital) : Hospital :=
  if ward_type.eqStr "ICU" then { h with icu_beds := h.icu_beds - 1 }
  else { h with op_beds := h.op_beds - 1 }

/-- `SharedSystemState.update_beds`: apply `decBed` to the registry entry
named `hospital_name` (Python dict value update on the unique key). -/
def update_beds (hospitals : List (String × Hospital)) (hospital_name : String)
    (ward_type : JVal) : List (String × Hospital) :=
  match hospitals with
  | [] => []
  | p :: rest =>
    (if p.1 = hospital_name then (p.1, decBed ward_type p.2) else p) ::
      update_beds rest hospital_name ward_type

/-! ### The seven presentation-layer operations (section 4.4)

Each function is the body of the corresponding Streamlit button handler.
A handler can only fire when its widget was rendered, so each carries the
page's dispatch condition (`mission["status"]`) and every attribute access
the page performs before the widget as a guard: if any of those accesses
would raise in Python, the widget is never shown and the shared state is
not touched.  Free inputs of a handler (text fields, the collaborator's
response) are parameters; `none` for a response models a raised
`generate_content` exception. -/

/-- The vitals record stored by the triage handler: empty or non-positive
inputs become the string "N/A" (Python truthiness). -/
def triageVitals (bp_input : String) (hr_input spo2_input : Int) : Vitals :=
  { bp := PyVal.s (if bp_input = "" then "N/A" else bp_input),
    hr := if 0 < hr_input then PyVal.i hr_input else PyVal.s "N/A",
    spo2 := if 0 < spo2_input then PyVal.i spo2_input else PyVal.s "N/A" }

/-- EXECUTE CLINICAL DIAGNOSTICS (triage page, i.e. status neither PENDING
nor ACTIVE nor DECLINED = IDLE).  With empty notes only a toast is shown.
Otherwise the declined-set is cleared and the vitals are stored FIRST; the
collaborator is then called and its response parsed, and only on a
successful parse is the analysis cache set.  A call or parse failure is
caught (`st.error`) after those first two mutations. -/
def submit_triage (notes bp_input : String) (hr_input spo2_input : Int)
    (resp : Option String) (s : SysState) : SysState :=
  if s.mission.status = Status.IDLE then
    if notes = "" then s
    else
      let vit : Vitals := triageVitals bp_input hr_input spo2_input
      let s1 : SysState :=
        { s with declined_hospitals := [],
                 mission := { s.mission with live_vitals := vit } }
      match resp with
      | none => s1
      | some text =>
        match parseTriage text with
        | none => s1
        | some r => { s1 with analysis_result := some r }
  else s

/-- REQUEST ADMISSION (triage page).  The button for hospital `name` exists
only if the cached analysis renders without raising (`r["severity"]` is
present and int-comparable, `r["ward_need"]` and `r["reason"]` present),
`name` is in the freshly computed candidate list, and `name` is not in the
declined-set (otherwise the button is the disabled REFUSED one). -/
def request_admission (name pid : String) (s : SysState) : SysState :=
  if s.mission.status = Status.IDLE then
    match s.analysis_result with
    | some (JVal.jobj r) =>
      match jLookup r "severity", jLookup r "ward_need", jLookup r "reason" with
      | some sev, some w, some _ =>
        if sev.intLike then
          if name ∈ (find_best_hospital w s.hospitals).map Prod.fst ∧
              some name ∉ s.declined_hospitals then
            { s with mission :=
                { s.mission with
                    status := Status.PENDING,
                    target_hospital := some name,
                    patient_data :=
                      some ((lookupEmr emr_database pid).getD unidentifiedPatient),
                    ai_analysis := some (JVal.jobj r) } }
          else s
        else s
      | _, _, _ => s
    | _ => s
  else s

/-- AUTHORIZE ADMISSION (Command page, PENDING branch).  The page renders
`patient["name"]`, `analysis["reason"]` and `analysis["severity"]` before
the buttons, so those accesses must succeed for the button to exist.  The
handler itself reads `analysis["ward_need"]` (KeyError aborts with no
mutation) and then `update_beds` indexes the registry (KeyError on an
unknown or missing target aborts with no mutation); only then is the
status set to ACTIVE. -/
def authorize_current (s : SysState) : SysState :=
  if s.mission.status = Status.PENDING then
    if s.mission.patient_data.isSome then
      match s.mission.ai_analysis with
      | some (JVal.jobj r) =>
        match jLookup r "reason", jLookup r "severity" with
        | some _, some _ =>
          match jLookup r "ward_need" with
          | some w =>
            match s.mission.target_hospital with
            | some t =>
              if (lookupReg s.hospitals t).isSome then
                { s with hospitals := update_beds s.hospitals t w,
                         mission := { s.mission with status := Status.ACTIVE } }
              else s
            | none => s
          | none => s
        | _, _ => s
      | _ => s
    else s
  else s

/-- DIVERT (Command page, PENDING branch; same render guards as
authorize).  Appends the raw target (possibly `None`) to the declined list
and sets the status to DECLINED. -/
def divert_current (s : SysState) : SysState :=
  if s.mission.status = Status.PENDING then
    if s.mission.patient_data.isSome then
      match s.mission.ai_analysis with
      | some (JVal.jobj r) =>
        match jLookup r "reason", jLookup r "severity" with
        | some _, some _ =>
          { s with declined_hospitals :=
                     s.declined_hospitals ++ [s.mission.target_hospital],
                   mission := { s.mission with status := Status.DECLINED } }
        | _, _ => s
      | _ => s
    else s
  else s

/-- INITIATE DIVERSION (EMS page, DECLINED branch): sets the status back to
IDLE and nothing else — in particular the target hospital is NOT cleared. -/
def acknowledge_diversion (s : SysState) : SysState :=
  if s.mission.status = Status.DECLINED then
    { s with mission := { s.mission with status := Status.IDLE } }
  else s

/-- TRANSMIT & RE-EVALUATE (EMS page, ACTIVE branch).  The page reads
`hospitals[target]` before any widget, so an invalid target means no
buttons.  The handler stores the new vitals FIRST; building the prompt then
reads `ai_analysis["reason"]` (a raising access aborts, vitals kept), and
on a successful collaborator call the telemetry alert is replaced (on
failure it is kept). -/
def transmit_vitals (new_bp : String) (new_hr new_spo2 : Int)
    (resp : Option String) (s : SysState) : SysState :=
  if s.mission.status = Status.ACTIVE then
    match s.mission.target_hospital with
    | some t =>
      if (lookupReg s.hospitals t).isSome then
        let s1 : SysState :=
          { s with mission :=
              { s.mission with live_vitals :=
                  { bp := PyVal.s new_bp, hr := PyVal.i new_hr,
                    spo2 := PyVal.i new_spo2 } } }
        match s1.mission.ai_analysis with
        | some (JVal.jobj r) =>
          match jLookup r "reason" with
          | some _ =>
            match resp with
            | some alertText =>
              { s1 with mission := { s1.mission with telemetry_alert := alertText } }
            | none => s1
          | none => s1
        | _ => s1
      else s
    | none => s
  else s

/-- TRANSFER COMPLETE (EMS page, ACTIVE branch; same `hospitals[target]`
render guard).  Sets status to IDLE, clears the declined-set and the
analysis cache — and does NOT null the target, patient or assessment. -/
def complete_handover (s : SysState) : SysState :=
  if s.mission.status = Status.ACTIVE then
    match s.mission.target_hospital with
    | some t =>
      if (lookupReg s.hospitals t).isSome then
        { s with mission := { s.mission with status := Status.IDLE },
                 declined_hospitals := [],
                 analysis_result := none }
      else s
    | none => s
  else s

/-! ### Operations, steps, reachability -/

/-- One invocation of a presentation-layer operation together with its free
inputs (text fields and the collaborator's response; `none` models a raised
collaborator exception). -/
inductive Op where
  | submit_triage (notes bp_input : String) (hr_input spo2_input : Int)
      (resp : Option String)
  | request_admission (name pid : String)
  | authorize_current
  | divert_current
  | acknowledge_diversion
  | transmit_vitals (new_bp : String) (new_hr new_spo2 : Int)
      (resp : Option String)
  | complete_handover

/-- Apply one operation to the shared state. -/
def step (s : SysState) : Op → SysState
  | Op.submit_triage notes bp hr spo2 resp => submit_triage notes bp hr spo2 resp s
  | Op.request_admission name pid => request_admission name pid s
  | Op.authorize_current => authorize_current s
  | Op.divert_current => divert_current s
  | Op.acknowledge_diversion => acknowledge_diversion s
  | Op.transmit_vitals bp hr spo2 resp => transmit_vitals bp hr spo2 resp s
  | Op.complete_handover => complete_handover s

/-- States reachable from the initial state by the operations of
section 4.4. -/
inductive Reachable : SysState → Prop
  | init : Reachable initState
  | next (s : SysState) (op : Op) : Reachable s → Reachable (step s op)

/-- The source state of each operation in the transition table of
section 4.4. -/
def sourceState : Op → Status
  | Op.submit_triage .. => Status.IDLE
  | Op.request_admission .. => Status.IDLE
  | Op.authorize_current => Status.PENDING
  | Op.divert_current => Status.PENDING
  | Op.acknowledge_diversion => Status.DECLINED
  | Op.transmit_vitals .. => Status.ACTIVE
  | Op.complete_handover => Status.ACTIVE

/-! ### Registry lemmas -/

theorem update_beds_cons_self {n : String} {h : Hospital}
    (rest : List (String × Hospital)) {t : String} (w : JVal) (hn : n = t) :
    update_beds ((n, h) :: rest) t w = (n, decBed w h) :: update_beds rest t w := by
  simp [update_beds, hn]

theorem update_beds_cons_other {n : String} {h : Hospital}
    (rest : List (String × Hospital)) {t : String} (w : JVal) (hn : ¬n = t) :
    update_beds ((n, h) :: rest) t w = (n, h) :: update_beds rest t w := by
  simp [update_beds, hn]

theorem update_beds_keys (reg : List (String × Hospital)) (t : String) (w : JVal) :
    (update_beds reg t w).map Prod.fst = reg.map Prod.fst := by
  induction reg with
  | nil => rfl
  | cons p rest ih =>
    obtain ⟨n, h⟩ := p
    by_cases hn : n = t
    · rw [update_beds_cons_self rest w hn]
      simp [ih]
    · rw [update_beds_cons_other rest w hn]
      simp [ih]

theorem lookupReg_update_self (reg : List (String × Hospital)) (t : String) (w : JVal) :
    lookupReg (update_beds reg t w) t = (lookupReg reg t).map (decBed w) := by
  induction reg with
  | nil => rfl
  | cons p rest ih =>
    obtain ⟨n, h⟩ := p
    by_cases hn : n = t
    · rw [update_beds_cons_self rest w hn]
      simp [lookupReg, hn]
    · rw [update_beds_cons_other rest w hn]
      simp [lookupReg, hn, ih]

theorem lookupReg_update_other (reg : List (String × Hospital)) (t : String) (w : JVal)
    (n : String) (hn : n ≠ t) :
    lookupReg (update_beds reg t w) n = lookupReg reg n := by
  induction reg with
  | nil => rfl
  | cons p rest ih =>
    obtain ⟨m, h⟩ := p
    by_cases hm : m = t
    · have hmn : m ≠ n := fun he => hn (he ▸ hm)
      rw [update_beds_cons_self rest w hm]
      simp [lookupReg, hmn, ih]
    · rw [update_beds_cons_other rest w hm]
      by_cases hmn : m = n <;> simp [lookupReg, hmn, ih]

theorem lookupReg_mem {reg : List (String × Hospital)} {k : String} {h : Hospital}
    (hl : lookupReg reg k = some h) : (k, h) ∈ reg := by
  induction reg with
  | nil => exact absurd hl (by simp [lookupReg])
  | cons p rest ih =>
    obtain ⟨n, h2⟩ := p
    have hl2 : (if n = k then some h2 else lookupReg rest k) = some h := hl
    by_cases hn : n = k
    · subst hn
      rw [if_pos rfl] at hl2
      obtain rfl := Option.some.inj hl2
      exact List.mem_cons_self _ _
    · rw [if_neg hn] at hl2
      exact List.mem_cons_of_mem _ (ih hl2)

theorem mem_eq_of_nodup_keys {reg : List (String × Hospital)}
    (hnd : (reg.map Prod.fst).Nodup) {k : String} {a b : Hospital}
    (ha : (k, a) ∈ reg) (hb : (k, b) ∈ reg) : a = b := by
  induction reg with
  | nil => cases ha
  | cons p rest ih =>
    obtain ⟨n, c⟩ := p
    simp only [List.map_cons, List.nodup_cons] at hnd
    rcases List.mem_cons.mp ha with ha1 | ha2 <;>
      rcases List.mem_cons.mp hb with hb1 | hb2
    · exact (Prod.ext_iff.mp ha1).2.trans (Prod.ext_iff.mp hb1).2.symm
    · exact absurd (List.mem_map.mpr ⟨(k, b), hb2, (Prod.ext_iff.mp ha1).1⟩) hnd.1
    · exact absurd (List.mem_map.mpr ⟨(k, a), ha2, (Prod.ext_iff.mp hb1).1⟩) hnd.1
    · exact ih hnd.2 ha2 hb2

/-! ### The inductive invariant -/

/-- All bed counts in a registry are non-negative. -/
def bedsOK (reg : List (String × Hospital)) : Prop :=
  ∀ p ∈ reg, 0 ≤ p.2.icu_beds ∧ 0 ≤ p.2.op_beds

/-- While a mission is PENDING, its target and assessment are set, and the
target hospital (unique by key) had qualifying capacity for the assessed
ward at admission-request time — and still has it, because no operation
touches the registry while the mission stays PENDING. -/
def pendingOK (s : SysState) : Prop :=
  s.mission.status = Status.PENDING →
    ∃ t r w, s.mission.target_hospital = some t ∧
      s.mission.ai_analysis = some (JVal.jobj r) ∧
      jLookup r "ward_need" = some w ∧
      ∀ h, (t, h) ∈ s.hospitals → hasCapacity w (t, h) = true

/-- The inductive invariant: non-negative counts, unique registry keys,
and the PENDING guarantee. -/
def SysInv (s : SysState) : Prop :=
  bedsOK s.hospitals ∧ (s.hospitals.map Prod.fst).Nodup ∧ pendingOK s

theorem inv_of_shape {s s2 : SysState} (hInv : SysInv s)
    (hh : s2.hospitals = s.hospitals)
    (hst : s2.mission.status ≠ Status.PENDING) : SysInv s2 :=
  ⟨hh ▸ hInv.1, hh ▸ hInv.2.1, fun hp => absurd hp hst⟩

theorem mem_update_beds {reg : List (String × Hospital)} {t : String} {w : JVal}
    {p : String × Hospital} (hp : p ∈ update_beds reg t w) :
    ∃ q ∈ reg, p = if q.1 = t then (q.1, decBed w q.2) else q := by
  induction reg with
  | nil => cases hp
  | cons q rest ih =>
    rcases List.mem_cons.mp hp with h1 | h2
    · exact ⟨q, List.mem_cons_self .., h1⟩
    · obtain ⟨q2, hq2, he⟩ := ih h2
      exact ⟨q2, List.mem_cons_of_mem _ hq2, he⟩

theorem sysInv_submit_triage (notes bp_input : String) (hr_input spo2_input : Int)
    (resp : Option String) (s : SysState) (hs : SysInv s) :
    SysInv (submit_triage notes bp_input hr_input spo2_input resp s) := by
  unfold submit_triage
  split
  case isFalse => exact hs
  case isTrue hIdle =>
    split
    case isTrue => exact hs
    case isFalse hn =>
      have hne : Status.IDLE ≠ Status.PENDING := by simp
      cases resp with
      | none => exact inv_of_shape hs rfl (by simpa [hIdle] using hne)
      | some text =>
        dsimp only
        cases parseTriage text with
        | none => exact inv_of_shape hs rfl (by simpa [hIdle] using hne)
        | some r => exact inv_of_shape hs rfl (by simpa [hIdle] using hne)

theorem sysInv_request_admission (name pid : String) (s : SysState) (hs : SysInv s) :
    SysInv (request_admission name pid s) := by
  unfold request_admission
  split
  case isFalse => exact hs
  case isTrue hIdle =>
    cases hA : s.analysis_result with
    | none => exact hs
    | some v =>
      cases v with
      | jnull => exact hs
      | jbool b => exact hs
      | jint n => exact hs
      | jstr s2 => exact hs
      | jarr xs => exact hs
      | jobj r =>
        dsimp only
        cases hS : jLookup r "severity" with
        | none => exact hs
        | some sev =>
          cases hW : jLookup r "ward_need" with
          | none => exact hs
          | some w =>
            cases hR : jLookup r "reason" with
            | none => exact hs
            | some re =>
              dsimp only
              split
              case isFalse => exact hs
              case isTrue hIL =>
                split
                case isFalse => exact hs
                case isTrue hguard =>
                  refine ⟨hs.1, hs.2.1, ?_⟩
                  intro _
                  refine ⟨name, r, w, rfl, rfl, hW, ?_⟩
                  intro h hm
                  have hmem : name ∈ (find_best_hospital w s.hospitals).map Prod.fst :=
                    hguard.1
                  obtain ⟨p, hpmem, hpf⟩ := List.mem_map.mp hmem
                  have hpfil : p ∈ s.hospitals.filter (hasCapacity w) := by
                    have hperm := List.perm_insertionSort
                      (fun a b : String × Hospital => a.2.dist ≤ b.2.dist)
                      (s.hospitals.filter (hasCapacity w))
                    exact hperm.mem_iff.mp hpmem
                  have hpreg : p ∈ s.hospitals := List.mem_of_mem_filter hpfil
                  have hpcap : hasCapacity w p = true := List.of_mem_filter hpfil
                  have hmem2 : (name, p.2) ∈ s.hospitals := by
                    rw [← hpf]
                    exact hpreg
                  have he : h = p.2 := mem_eq_of_nodup_keys hs.2.1 hm hmem2
                  rw [he]
                  have hpe : ((name, p.2) : String × Hospital) = p := by
                    rw [← hpf]
                  rw [hpe]
                  exact hpcap

theorem sysInv_authorize_current (s : SysState) (hs : SysInv s) :
    SysInv (authorize_current s) := by
  unfold authorize_current
  split
  case isFalse => exact hs
  case isTrue hPend =>
    split
    case isFalse => exact hs
    case isTrue hPat =>
      cases hA : s.mission.ai_analysis with
      | none => exact hs
      | some v =>
        cases v with
        | jnull => exact hs
        | jbool b => exact hs
        | jint n => exact hs
        | jstr s2 => exact hs
        | jarr xs => exact hs
        | jobj r =>
          dsimp only
          cases hR : jLookup r "reason" with
          | none => exact hs
          | some re =>
            cases hS : jLookup r "severity" with
            | none => exact hs
            | some se =>
              dsimp only
              cases hW : jLookup r "ward_need" with
              | none => exact hs
              | some w =>
                cases hT : s.mission.target_hospital with
                | none => exact hs
                | some t =>
                  dsimp only
                  split
                  case isFalse => exact hs
                  case isTrue hLk =>
                    obtain ⟨hb, hnd, hp⟩ := hs
                    obtain ⟨t2, r2, w2, ht2, hai2, hw2, hcap⟩ := hp hPend
                    obtain rfl : t = t2 := Option.some.inj (hT.symm.trans ht2)
                    obtain rfl : r = r2 :=
                      JVal.jobj.inj (Option.some.inj (hA.symm.trans hai2))
                    obtain rfl : w = w2 := Option.some.inj (hW.symm.trans hw2)
                    refine ⟨?_, ?_, ?_⟩
                    · intro p hp2
                      obtain ⟨q, hq, rfl⟩ := mem_update_beds hp2
                      by_cases hqt : q.1 = t
                      · rw [if_pos hqt]
                        have hmemt : (t, q.2) ∈ s.hospitals := by
                          rw [← hqt]
                          exact hq
                        have hcap2 := hcap q.2 hmemt
                        have hbq := hb q hq
                        by_cases hicu : w.eqStr "ICU" = true
                        · have h0 : (0:Int) < q.2.icu_beds := by
                            unfold hasCapacity at hcap2
                            rw [if_pos hicu] at hcap2
                            exact of_decide_eq_true hcap2
                          simp only [decBed, if_pos hicu]
                          exact ⟨by omega, hbq.2⟩
                        · have h0 : (0:Int) < q.2.op_beds := by
                            unfold hasCapacity at hcap2
                            rw [if_neg hicu] at hcap2
                            by_cases hop : w.eqStr "OP" = true
                            · rw [if_pos hop] at hcap2
                              exact of_decide_eq_true hcap2
                            · rw [if_neg hop] at hcap2
                              cases hcap2
                          simp only [decBed, if_neg hicu]
                          exact ⟨hbq.1, by omega⟩
                      · rw [if_neg hqt]
                        exact hb q hq
                    · rw [update_beds_keys]
                      exact hnd
                    · intro hceq
                      simp at hceq

theorem sysInv_divert_current (s : SysState) (hs : SysInv s) :
    SysInv (divert_current s) := by
  unfold divert_current
  split
  case isFalse => exact hs
  case isTrue hPend =>
    split
    case isFalse => exact hs
    case isTrue hPat =>
      cases hA : s.mission.ai_analysis with
      | none => exact hs
      | some v =>
        cases v with
        | jnull => exact hs
        | jbool b => exact hs
        | jint n => exact hs
        | jstr s2 => exact hs
        | jarr xs => exact hs
        | jobj r =>
          dsimp only
          cases hR : jLookup r "reason" with
          | none => exact hs
          | some re =>
            cases hS : jLookup r "severity" with
            | none => exact hs
            | some se => exact inv_of_shape hs rfl (by simp)

theorem sysInv_acknowledge_diversion (s : SysState) (hs : SysInv s) :
    SysInv (acknowledge_diversion s) := by
  unfold acknowledge_diversion
  split
  case isFalse => exact hs
  case isTrue hDec => exact inv_of_shape hs rfl (by simp)

theorem sysInv_transmit_vitals (new_bp : String) (new_hr new_spo2 : Int)
    (resp : Option String) (s : SysState) (hs : SysInv s) :
    SysInv (transmit_vitals new_bp new_hr new_spo2 resp s) := by
  unfold transmit_vitals
  split
  case isFalse => exact hs
  case isTrue hAct =>
    have hne : Status.ACTIVE ≠ Status.PENDING := by simp
    cases hT : s.mission.target_hospital with
    | none => exact hs
    | some t =>
      dsimp only
      split
      case isFalse => exact hs
      case isTrue hLk =>
        cases hA : s.mission.ai_analysis with
        | none => exact inv_of_shape hs rfl (by simpa [hAct] using hne)
        | some v =>
          cases v with
          | jnull => exact inv_of_shape hs rfl (by simpa [hAct] using hne)
          | jbool b => exact inv_of_shape hs rfl (by simpa [hAct] using hne)
          | jint n => exact inv_of_shape hs rfl (by simpa [hAct] using hne)
          | jstr s2 => exact inv_of_shape hs rfl (by simpa [hAct] using hne)
          | jarr xs => exact inv_of_shape hs rfl (by simpa [hAct] using hne)
          | jobj r =>
            dsimp only
            cases hR : jLookup r "reason" with
            | none => exact inv_of_shape hs rfl (by simpa [hAct] using hne)
            | some re =>
              cases resp with
              | none => exact inv_of_shape hs rfl (by simpa [hAct] using hne)
              | some alertText =>
                dsimp only
                exact inv_of_shape hs rfl (by simpa [hAct] using hne)

theorem sysInv_complete_handover (s : SysState) (hs : SysInv s) :
    SysInv (complete_handover s) := by
  unfold complete_handover
  split
  case isFalse => exact hs
  case isTrue hAct =>
    cases hT : s.mission.target_hospital with
    | none => exact hs
    | some t =>
      dsimp only
      split
      case isFalse => exact hs
      case isTrue hLk => exact inv_of_shape hs rfl (by simp)

theorem sysInv_step (s : SysState) (op : Op) (hs : SysInv s) : SysInv (step s op) := by
  cases op with
  | submit_triage notes bp hr spo2 resp => exact sysInv_submit_triage notes bp hr spo2 resp s hs
  | request_admission name pid => exact sysInv_request_admission name pid s hs
  | authorize_current => exact sysInv_authorize_current s hs
  | divert_current => exact sysInv_divert_current s hs
  | acknowledge_diversion => exact sysInv_acknowledge_diversion s hs
  | transmit_vitals bp hr spo2 resp => exact sysInv_transmit_vitals bp hr spo2 resp s hs
  | complete_handover => exact sysInv_complete_handover s hs

theorem sysInv_init : SysInv initState := by
  refine ⟨?_, ?_, ?_⟩
  · intro p hp
    fin_cases hp <;> constructor <;> decide
  · decide
  · intro h
    cases h

theorem reachable_sysInv {s : SysState} (hs : Reachable s) : SysInv s := by
  induction hs with
  | init => exact sysInv_init
  | next s2 op _ ih => exact sysInv_step s2 op ih

/-! ### A concrete run used by witnesses and counterexamples -/

/-- A well-formed collaborator response. -/
def goodResp : String :=
  "\x7b \"severity\": 8, \"ward_need\": \"ICU\", \"reason\": \"Cardiac event\" \x7d"

/-- The object `goodResp` parses to. -/
def goodObj : List (String × JVal) :=
  [("severity", JVal.jint 8), ("ward_need", JVal.jstr "ICU"),
   ("reason", JVal.jstr "Cardiac event")]

def opTriage : Op :=
  Op.submit_triage "chest pain, diaphoresis" "90/60" 120 91 (some goodResp)

def sAssessed : SysState := step initState opTriage

def sPending : SysState :=
  step sAssessed (Op.request_admission "City General Trauma" "P-101")

def sActive : SysState := step sPending Op.authorize_current

def sDeclined : SysState := step sPending Op.divert_current

def sIdleDeclined : SysState := step sDeclined Op.acknowledge_diversion

/-- A triage attempt whose collaborator call raises. -/
def opFailTriage : Op := Op.submit_triage "worsening pain" "100/70" 110 93 none

theorem reach_sPending : Reachable sPending :=
  Reachable.next _ _ (Reachable.next _ _ Reachable.init)

theorem reach_sActive : Reachable sActive := Reachable.next _ _ reach_sPending

theorem reach_sDeclined : Reachable sDeclined := Reachable.next _ _ reach_sPending

theorem reach_sIdleDeclined : Reachable sIdleDeclined :=
  Reachable.next _ _ reach_sDeclined

/-! ### Claim C1 -/

/-- C1: for every hospital H in the registry and every state reachable from
the initial state by the section 4.4 operations, both `icu_beds H ≥ 0` and
`op_beds H ≥ 0` hold. -/
theorem c1_bed_counts_nonneg (s : SysState) (hs : Reachable s) :
    ∀ p ∈ s.hospitals, 0 ≤ p.2.icu_beds ∧ 0 ≤ p.2.op_beds :=
  (reachable_sysInv hs).1

/-- Witness for C1 at the post-authorization state of the concrete run. -/
theorem c1_bed_counts_nonneg_witness :
    0 ≤ (({ specialty := "Level 1 Trauma", dist := 5, icu_beds := 1,
            op_beds := 15 } : Hospital)).icu_beds ∧
    0 ≤ (({ specialty := "Level 1 Trauma", dist := 5, icu_beds := 1,
            op_beds := 15 } : Hospital)).op_beds :=
  c1_bed_counts_nonneg sActive reach_sActive
    ("City General Trauma",
     { specialty := "Level 1 Trauma", dist := 5, icu_beds := 1, op_beds := 15 })
    (by decide)

/-! ### Claim C9 -/

/-- C9: invoking any section 4.4 operation in a state whose mission status
is not that operation's listed source state leaves the entire shared state
unchanged. -/
theorem c9_noop_outside_source_state (s : SysState) (op : Op)
    (h : s.mission.status ≠ sourceState op) : step s op = s := by
  cases op with
  | submit_triage notes bp hr spo2 resp =>
    exact if_neg (show ¬s.mission.status = Status.IDLE from h)
  | request_admission name pid =>
    exact if_neg (show ¬s.mission.status = Status.IDLE from h)
  | authorize_current =>
    exact if_neg (show ¬s.mission.status = Status.PENDING from h)
  | divert_current =>
    exact if_neg (show ¬s.mission.status = Status.PENDING from h)
  | acknowledge_diversion =>
    exact if_neg (show ¬s.mission.status = Status.DECLINED from h)
  | transmit_vitals bp hr spo2 resp =>
    exact if_neg (show ¬s.mission.status = Status.ACTIVE from h)
  | complete_handover =>
    exact if_neg (show ¬s.mission.status = Status.ACTIVE from h)

/-- Witness for C9: authorizing from the initial (IDLE) state is a no-op. -/
theorem c9_noop_outside_source_state_witness :
    step initState Op.authorize_current = initState :=
  c9_noop_outside_source_state initState Op.authorize_current (by decide)

/-! ### Claim C10 -/

/-- C10: for every ward string other than exactly "ICU" — lowercase "icu"
included — `update_beds` decrements the general/outpatient bed count of the
named hospital; the ward value is never validated before the registry is
mutated, and all other entries are untouched. -/
theorem c10_update_beds_unvalidated (w : String) (hw : w ≠ "ICU")
    (reg : List (String × Hospital)) (t : String) (h : Hospital)
    (hl : lookupReg reg t = some h) :
    lookupReg (update_beds reg t (JVal.jstr w)) t =
      some { h with op_beds := h.op_beds - 1 } ∧
    (∀ n, n ≠ t → lookupReg (update_beds reg t (JVal.jstr w)) n = lookupReg reg n) := by
  constructor
  · rw [lookupReg_update_self, hl]
    have hf : (JVal.jstr w).eqStr "ICU" = false := by
      simp [JVal.eqStr, hw]
    simp [decBed, hf]
  · intro n hn
    exact lookupReg_update_other reg t (JVal.jstr w) n hn

/-- Witness for C10 at ward string "icu" on the initial registry. -/
theorem c10_update_beds_unvalidated_witness :
    lookupReg (update_beds initHospitals "City General Trauma" (JVal.jstr "icu"))
        "City General Trauma" =
      some { specialty := "Level 1 Trauma", dist := 5, icu_beds := 2,
             op_beds := 15 - 1 } ∧
    (∀ n, n ≠ "City General Trauma" →
      lookupReg (update_beds initHospitals "City General Trauma" (JVal.jstr "icu")) n =
        lookupReg initHospitals n) :=
  c10_update_beds_unvalidated "icu" (by decide) initHospitals "City General Trauma"
    { specialty := "Level 1 Trauma", dist := 5, icu_beds := 2, op_beds := 15 } rfl

/-! ### Claim C7 -/

/-- C7 counterexample: in the concrete DECLINED state, acknowledging the
diversion sets the status to IDLE but the target hospital is NOT cleared. -/
theorem c7_ack_target_not_cleared_cex :
    sDeclined.mission.status = Status.DECLINED ∧
    (step sDeclined Op.acknowledge_diversion).mission.status = Status.IDLE ∧
    (step sDeclined Op.acknowledge_diversion).mission.target_hospital =
      some "City General Trauma" :=
  ⟨rfl, rfl, rfl⟩

/-- C7 amended: after `acknowledge_diversion()` from DECLINED the status is
IDLE and every other component — the target hospital included — keeps its
value (the target is not cleared). -/
theorem c7_ack_amended (s : SysState) (h : s.mission.status = Status.DECLINED) :
    acknowledge_diversion s =
      { s with mission := { s.mission with status := Status.IDLE } } := by
  unfold acknowledge_diversion
  rw [if_pos h]

/-- Witness for the amended C7 at the concrete DECLINED state. -/
theorem c7_ack_amended_witness :
    acknowledge_diversion sDeclined =
      { sDeclined with mission := { sDeclined.mission with status := Status.IDLE } } :=
  c7_ack_amended sDeclined rfl

/-! ### Claim C4 -/

/-- C4 counterexample: in the concrete ACTIVE state, completing the
handover resets status and declined-set but does NOT null the target
hospital, the patient data or the assessment. -/
theorem c4_handover_not_cleared_cex :
    sActive.mission.status = Status.ACTIVE ∧
    (step sActive Op.complete_handover).mission.status = Status.IDLE ∧
    (step sActive Op.complete_handover).declined_hospitals = [] ∧
    (step sActive Op.complete_handover).mission.target_hospital =
      some "City General Trauma" ∧
    (step sActive Op.complete_handover).mission.patient_data.isSome = true ∧
    (step sActive Op.complete_handover).mission.ai_analysis.isSome = true :=
  ⟨rfl, rfl, rfl, rfl, rfl, rfl⟩

/-- C4 amended: after `complete_handover()` from ACTIVE (with a valid
target) the status is IDLE, the declined-set is empty and the cached
analysis is cleared, while target, patient data and assessment keep their
previous values (they are not nulled). -/
theorem c4_handover_amended (s : SysState) (hst : s.mission.status = Status.ACTIVE)
    (t : String) (ht : s.mission.target_hospital = some t)
    (hr : (lookupReg s.hospitals t).isSome = true) :
    complete_handover s =
      { s with mission := { s.mission with status := Status.IDLE },
               declined_hospitals := [],
               analysis_result := none } := by
  unfold complete_handover
  rw [if_pos hst, ht]
  dsimp only
  rw [if_pos hr]

/-- Witness for the amended C4 at the concrete ACTIVE state. -/
theorem c4_handover_amended_witness :
    complete_handover sActive =
      { sActive with mission := { sActive.mission with status := Status.IDLE },
                     declined_hospitals := [],
                     analysis_result := none } :=
  c4_handover_amended sActive rfl "City General Trauma" rfl rfl

/-! ### Claim C6 -/

/-- C6 counterexample: the triage parse step accepts a markdown-fenced
response missing two of the three required fields, and a response whose
severity is a string — both of which the claim says must be parse
failures. -/
theorem c6_parse_rejects_deviations_cex :
    (parseTriage "```json\n\x7b\"severity\": 5\x7d\n```").isSome = true ∧
    (parseTriage
        "\x7b \"severity\": \"high\", \"ward_need\": \"ICU\", \"reason\": \"x\" \x7d").isSome =
      true :=
  ⟨by decide, by decide⟩

/-- C6 amended: the parse step strips the markdown fences "```json" and
"```" and then accepts exactly the well-formed JSON texts, with no
validation of the severity/ward_need/reason fields: a fenced response is
accepted, missing fields are accepted, an out-of-range or boolean severity
is accepted; only non-JSON text is a parse failure. -/
theorem c6_parse_step_amended :
    (∀ text : String, parseTriage text = jsonLoadsChars (cleanResponse text)) ∧
    parseTriage goodResp = some (JVal.jobj goodObj) ∧
    (parseTriage ("```json\n" ++ goodResp ++ "\n```")).isSome = true ∧
    (parseTriage "\x7b\"severity\": 12\x7d").isSome = true ∧
    (parseTriage "\x7b\"severity\": true\x7d").isSome = true ∧
    parseTriage "Patient needs ICU care." = none :=
  ⟨fun _ => rfl, rfl, by decide, by decide, by decide, rfl⟩

/-! ### Claim C5 -/

/-- C5 counterexample: from the concrete IDLE state carrying a non-empty
declined-set, a triage whose collaborator call fails leaves the mission
record changed — the live vitals are overwritten and the declined-set is
cleared before the call. -/
theorem c5_failure_mutates_record_cex :
    sIdleDeclined.mission.status = Status.IDLE ∧
    sIdleDeclined.declined_hospitals = [some "City General Trauma"] ∧
    (step sIdleDeclined opFailTriage).declined_hospitals = [] ∧
    (step sIdleDeclined opFailTriage).mission.live_vitals ≠
      sIdleDeclined.mission.live_vitals :=
  ⟨rfl, rfl, rfl, by decide⟩

/-- C5 amended: a collaborator failure (raised call or unparseable
response) is caught and recoverable, and the mission status, target,
patient, assessment, telemetry alert and analysis cache are unchanged —
but the live vitals are overwritten with the newly entered values before
the call, and (for triage) the declined-hospitals set is cleared; those two
do NOT retain their prior values. -/
theorem c5_failure_amended :
    (∀ (s : SysState) (notes bp : String) (hr spo2 : Int),
      s.mission.status = Status.IDLE → notes ≠ "" →
      step s (Op.submit_triage notes bp hr spo2 none) =
        { s with declined_hospitals := [],
                 mission := { s.mission with live_vitals := triageVitals bp hr spo2 } }) ∧
    (∀ (s : SysState) (notes bp text : String) (hr spo2 : Int),
      s.mission.status = Status.IDLE → notes ≠ "" → parseTriage text = none →
      step s (Op.submit_triage notes bp hr spo2 (some text)) =
        { s with declined_hospitals := [],
                 mission := { s.mission with live_vitals := triageVitals bp hr spo2 } }) ∧
    (∀ (s : SysState) (bp : String) (hr spo2 : Int) (t : String),
      s.mission.status = Status.ACTIVE → s.mission.target_hospital = some t →
      (lookupReg s.hospitals t).isSome = true →
      step s (Op.transmit_vitals bp hr spo2 none) =
        { s with mission := { s.mission with live_vitals :=
            { bp := PyVal.s bp, hr := PyVal.i hr, spo2 := PyVal.i spo2 } } }) := by
  refine ⟨?_, ?_, ?_⟩
  · intro s notes bp hr spo2 hst hn
    show submit_triage notes bp hr spo2 none s = _
    unfold submit_triage
    rw [if_pos hst, if_neg hn]
  · intro s notes bp text hr spo2 hst hn hpt
    show submit_triage notes bp hr spo2 (some text) s = _
    unfold submit_triage
    rw [if_pos hst, if_neg hn]
    dsimp only
    rw [hpt]
  · intro s bp hr spo2 t hst ht hlk
    show transmit_vitals bp hr spo2 none s = _
    unfold transmit_vitals
    rw [if_pos hst, ht]
    dsimp only
    rw [if_pos hlk]
    cases hA : s.mission.ai_analysis with
    | none => rfl
    | some v =>
      cases v with
      | jnull => rfl
      | jbool b => rfl
      | jint n => rfl
      | jstr s2 => rfl
      | jarr xs => rfl
      | jobj r =>
        dsimp only
        cases hR : jLookup r "reason" with
        | none => rfl
        | some re => rfl

/-- Witness for the amended C5: the failing triage of the counterexample
run produces exactly the partially mutated state. -/
theorem c5_failure_amended_witness :
    step sIdleDeclined opFailTriage =
      { sIdleDeclined with
          declined_hospitals := [],
          mission := { sIdleDeclined.mission with
                         live_vitals := triageVitals "100/70" 110 93 } } :=
  c5_failure_amended.1 sIdleDeclined "worsening pain" "100/70" 110 93 rfl (by decide)

/-! ### Claim C8 -/

/-- C8 counterexample: right after the divert of the concrete run the
declined-set holds the hospital, yet `find_best_hospital` (the
find_candidates of the spec) still returns it — the filter is
capacity-only. -/
theorem c8_declined_still_candidate_cex :
    sDeclined.declined_hospitals = [some "City General Trauma"] ∧
    "City General Trauma" ∈
      (find_best_hospital (JVal.jstr "ICU") sDeclined.hospitals).map Prod.fst :=
  ⟨rfl, by decide⟩

/-- C8 amended: `divert_current()` appends the target to the declined-set
and leaves the registry unchanged, so the hospital still appears in
`find_candidates` results (the filter is capacity-only); what the
declined-set does enforce is that `request_admission` for a declined
hospital is a no-op (the REFUSED button) until a fresh `submit_triage`
clears the set. -/
theorem c8_divert_amended :
    (∀ s : SysState, (divert_current s).hospitals = s.hospitals) ∧
    (∀ (s : SysState) (r : List (String × JVal)),
      s.mission.status = Status.PENDING → s.mission.patient_data.isSome = true →
      s.mission.ai_analysis = some (JVal.jobj r) →
      (jLookup r "reason").isSome = true → (jLookup r "severity").isSome = true →
      divert_current s =
        { s with declined_hospitals :=
                   s.declined_hospitals ++ [s.mission.target_hospital],
                 mission := { s.mission with status := Status.DECLINED } }) ∧
    (∀ (s : SysState) (name pid : String),
      some name ∈ s.declined_hospitals → request_admission name pid s = s) := by
  refine ⟨?_, ?_, ?_⟩
  · intro s
    unfold divert_current
    split
    case isFalse => rfl
    case isTrue hPend =>
      split
      case isFalse => rfl
      case isTrue hPat =>
        cases s.mission.ai_analysis with
        | none => rfl
        | some v =>
          cases v with
          | jnull => rfl
          | jbool b => rfl
          | jint n => rfl
          | jstr s2 => rfl
          | jarr xs => rfl
          | jobj r =>
            dsimp only
            cases jLookup r "reason" with
            | none => rfl
            | some re =>
              cases jLookup r "severity" with
              | none => rfl
              | some se => rfl
  · intro s r hst hp hai h1 h2
    unfold divert_current
    rw [if_pos hst, if_pos hp, hai]
    dsimp only
    obtain ⟨re, hre⟩ := Option.isSome_iff_exists.mp h1
    obtain ⟨se, hse⟩ := Option.isSome_iff_exists.mp h2
    rw [hre, hse]
  · intro s name pid hmem
    unfold request_admission
    split
    case isFalse => rfl
    case isTrue hIdle =>
      cases s.analysis_result with
      | none => rfl
      | some v =>
        cases v with
        | jnull => rfl
        | jbool b => rfl
        | jint n => rfl
        | jstr s2 => rfl
        | jarr xs => rfl
        | jobj r =>
          dsimp only
          cases jLookup r "severity" with
          | none => rfl
          | some sev =>
            cases jLookup r "ward_need" with
            | none => rfl
            | some w =>
              cases jLookup r "reason" with
              | none => rfl
              | some re =>
                dsimp only
                split
                case isFalse => rfl
                case isTrue hIL =>
                  rw [if_neg]
                  intro hand
                  exact hand.2 hmem

/-- Witness for the amended C8: the concrete divert step appends the
target and the subsequent request for the declined hospital is a no-op. -/
theorem c8_divert_amended_witness :
    divert_current sPending =
      { sPending with
          declined_hospitals :=
            sPending.declined_hospitals ++ [sPending.mission.target_hospital],
          mission := { sPending.mission with status := Status.DECLINED } } :=
  c8_divert_amended.2.1 sPending goodObj rfl rfl rfl rfl rfl

/-! ### Shape lemmas for claim C2 -/

theorem submit_status_eq (notes bp : String) (hr spo2 : Int) (resp : Option String)
    (s : SysState) :
    (submit_triage notes bp hr spo2 resp s).mission.status = s.mission.status := by
  unfold submit_triage
  split
  case isFalse => rfl
  case isTrue hIdle =>
    split
    case isTrue => rfl
    case isFalse hn =>
      cases resp with
      | none => rfl
      | some text =>
        dsimp only
        cases parseTriage text with
        | none => rfl
        | some r => rfl

theorem transmit_status_eq (bp : String) (hr spo2 : Int) (resp : Option String)
    (s : SysState) :
    (transmit_vitals bp hr spo2 resp s).mission.status = s.mission.status := by
  unfold transmit_vitals
  split
  case isFalse => rfl
  case isTrue hAct =>
    cases s.mission.target_hospital with
    | none => rfl
    | some t =>
      dsimp only
      split
      case isFalse => rfl
      case isTrue hLk =>
        cases s.mission.ai_analysis with
        | none => rfl
        | some v =>
          cases v with
          | jnull => rfl
          | jbool b => rfl
          | jint n => rfl
          | jstr s2 => rfl
          | jarr xs => rfl
          | jobj r =>
            dsimp only
            cases jLookup r "reason" with
            | none => rfl
            | some re =>
              cases resp with
              | none => rfl
              | some alertText => rfl

theorem request_status_shape (name pid : String) (s : SysState) :
    request_admission name pid s = s ∨
    (request_admission name pid s).mission.status = Status.PENDING := by
  unfold request_admission
  split
  case isFalse => exact Or.inl rfl
  case isTrue hIdle =>
    cases s.analysis_result with
    | none => exact Or.inl rfl
    | some v =>
      cases v with
      | jnull => exact Or.inl rfl
      | jbool b => exact Or.inl rfl
      | jint n => exact Or.inl rfl
      | jstr s2 => exact Or.inl rfl
      | jarr xs => exact Or.inl rfl
      | jobj r =>
        dsimp only
        cases jLookup r "severity" with
        | none => exact Or.inl rfl
        | some sev =>
          cases jLookup r "ward_need" with
          | none => exact Or.inl rfl
          | some w =>
            cases jLookup r "reason" with
            | none => exact Or.inl rfl
            | some re =>
              dsimp only
              split
              case isFalse => exact Or.inl rfl
              case isTrue hIL =>
                split
                case isFalse => exact Or.inl rfl
                case isTrue hguard => exact Or.inr rfl

theorem divert_status_shape (s : SysState) :
    divert_current s = s ∨
    (divert_current s).mission.status = Status.DECLINED := by
  unfold divert_current
  split
  case isFalse => exact Or.inl rfl
  case isTrue hPend =>
    split
    case isFalse => exact Or.inl rfl
    case isTrue hPat =>
      cases s.mission.ai_analysis with
      | none => exact Or.inl rfl
      | some v =>
        cases v with
        | jnull => exact Or.inl rfl
        | jbool b => exact Or.inl rfl
        | jint n => exact Or.inl rfl
        | jstr s2 => exact Or.inl rfl
        | jarr xs => exact Or.inl rfl
        | jobj r =>
          dsimp only
          cases jLookup r "reason" with
          | none => exact Or.inl rfl
          | some re =>
            cases jLookup r "severity" with
            | none => exact Or.inl rfl
            | some se => exact Or.inr rfl

theorem ack_status_shape (s : SysState) :
    acknowledge_diversion s = s ∨
    (acknowledge_diversion s).mission.status = Status.IDLE := by
  unfold acknowledge_diversion
  split
  case isFalse => exact Or.inl rfl
  case isTrue hDec => exact Or.inr rfl

theorem complete_status_shape (s : SysState) :
    complete_handover s = s ∨
    (complete_handover s).mission.status = Status.IDLE := by
  unfold complete_handover
  split
  case isFalse => exact Or.inl rfl
  case isTrue hAct =>
    cases s.mission.target_hospital with
    | none => exact Or.inl rfl
    | some t =>
      dsimp only
      split
      case isFalse => exact Or.inl rfl
      case isTrue hLk => exact Or.inr rfl

theorem authorize_shape (s : SysState) :
    authorize_current s = s ∨
    (s.mission.status = Status.PENDING ∧
      ∃ r w t, s.mission.ai_analysis = some (JVal.jobj r) ∧
        jLookup r "ward_need" = some w ∧
        s.mission.target_hospital = some t ∧
        (lookupReg s.hospitals t).isSome = true ∧
        authorize_current s =
          { s with hospitals := update_beds s.hospitals t w,
                   mission := { s.mission with status := Status.ACTIVE } }) := by
  unfold authorize_current
  split
  case isFalse => exact Or.inl rfl
  case isTrue hPend =>
    split
    case isFalse => exact Or.inl rfl
    case isTrue hPat =>
      cases hA : s.mission.ai_analysis with
      | none => exact Or.inl rfl
      | some v =>
        cases v with
        | jnull => exact Or.inl rfl
        | jbool b => exact Or.inl rfl
        | jint n => exact Or.inl rfl
        | jstr s2 => exact Or.inl rfl
        | jarr xs => exact Or.inl rfl
        | jobj r =>
          dsimp only
          cases hR : jLookup r "reason" with
          | none => exact Or.inl rfl
          | some re =>
            cases hS : jLookup r "severity" with
            | none => exact Or.inl rfl
            | some se =>
              dsimp only
              cases hW : jLookup r "ward_need" with
              | none => exact Or.inl rfl
              | some w =>
                cases hT : s.mission.target_hospital with
                | none => exact Or.inl rfl
                | some t =>
                  dsimp only
                  split
                  case isFalse => exact Or.inl rfl
                  case isTrue hLk =>
                    exact Or.inr ⟨hPend, r, w, t, rfl, hW, rfl, hLk, rfl⟩

theorem eqStr_eq {v : JVal} {s2 : String} (h : v.eqStr s2 = true) :
    v = JVal.jstr s2 := by
  cases v with
  | jstr s3 =>
    simp only [JVal.eqStr, decide_eq_true_eq] at h
    rw [h]
  | jnull => simp [JVal.eqStr] at h
  | jbool b => simp [JVal.eqStr] at h
  | jint n => simp [JVal.eqStr] at h
  | jarr xs => simp [JVal.eqStr] at h
  | jobj kvs => simp [JVal.eqStr] at h

/-! ### Claim C2 -/

/-- C2: in every run, a mission reaches status ACTIVE only via exactly one
authorize call from PENDING, and that call decrements by exactly one the
bed count of exactly the (target hospital, ward_need) pair set in the
mission at authorization time, leaving every other hospital's counts and
the target's other ward count unchanged; a second authorize from ACTIVE is
a no-op. -/
theorem c2_active_only_via_authorize (s : SysState) (op : Op) (hs : Reachable s) :
    (s.mission.status ≠ Status.ACTIVE →
      (step s op).mission.status = Status.ACTIVE →
      op = Op.authorize_current ∧ s.mission.status = Status.PENDING ∧
      ∃ t r w h,
        s.mission.target_hospital = some t ∧
        s.mission.ai_analysis = some (JVal.jobj r) ∧
        jLookup r "ward_need" = some w ∧
        lookupReg s.hospitals t = some h ∧
        ((w = JVal.jstr "ICU" ∧
            lookupReg (step s op).hospitals t =
              some { h with icu_beds := h.icu_beds - 1 }) ∨
         (w = JVal.jstr "OP" ∧
            lookupReg (step s op).hospitals t =
              some { h with op_beds := h.op_beds - 1 })) ∧
        (∀ n, n ≠ t → lookupReg (step s op).hospitals n = lookupReg s.hospitals n)) ∧
    (s.mission.status = Status.ACTIVE → step s Op.authorize_current = s) := by
  constructor
  · intro hne hact
    cases op with
    | submit_triage notes bp hr spo2 resp =>
      exact absurd ((submit_status_eq notes bp hr spo2 resp s).symm.trans hact) hne
    | request_admission name pid =>
      have hact2 : (request_admission name pid s).mission.status = Status.ACTIVE := hact
      rcases request_status_shape name pid s with he | hp
      · rw [he] at hact2
        exact absurd hact2 hne
      · rw [hp] at hact2
        simp at hact2
    | divert_current =>
      have hact2 : (divert_current s).mission.status = Status.ACTIVE := hact
      rcases divert_status_shape s with he | hp
      · rw [he] at hact2
        exact absurd hact2 hne
      · rw [hp] at hact2
        simp at hact2
    | acknowledge_diversion =>
      have hact2 : (acknowledge_diversion s).mission.status = Status.ACTIVE := hact
      rcases ack_status_shape s with he | hp
      · rw [he] at hact2
        exact absurd hact2 hne
      · rw [hp] at hact2
        simp at hact2
    | transmit_vitals bp hr spo2 resp =>
      exact absurd ((transmit_status_eq bp hr spo2 resp s).symm.trans hact) hne
    | complete_handover =>
      have hact2 : (complete_handover s).mission.status = Status.ACTIVE := hact
      rcases complete_status_shape s with he | hp
      · rw [he] at hact2
        exact absurd hact2 hne
      · rw [hp] at hact2
        simp at hact2
    | authorize_current =>
      rcases authorize_shape s with he | ⟨hPend, r, w, t, hA, hW, hT, hLk, heq⟩
      · have hact2 : (authorize_current s).mission.status = Status.ACTIVE := hact
        rw [he] at hact2
        exact absurd hact2 hne
      · obtain ⟨h, hh⟩ := Option.isSome_iff_exists.mp hLk
        have hstep : step s Op.authorize_current =
            { s with hospitals := update_beds s.hospitals t w,
                     mission := { s.mission with status := Status.ACTIVE } } := heq
        have hlkstep :
            lookupReg (step s Op.authorize_current).hospitals t =
              some (decBed w h) := by
          rw [hstep]
          rw [lookupReg_update_self, hh]
          rfl
        refine ⟨rfl, hPend, t, r, w, h, hT, hA, hW, hh, ?_, ?_⟩
        · obtain ⟨t2, r2, w2, ht2, hai2, hw2, hcap⟩ :=
            ((reachable_sysInv hs).2.2) hPend
          obtain rfl : t = t2 := Option.some.inj (hT.symm.trans ht2)
          obtain rfl : r = r2 :=
            JVal.jobj.inj (Option.some.inj (hA.symm.trans hai2))
          obtain rfl : w = w2 := Option.some.inj (hW.symm.trans hw2)
          have hcap2 := hcap h (lookupReg_mem hh)
          by_cases hicu : w.eqStr "ICU" = true
          · left
            refine ⟨eqStr_eq hicu, ?_⟩
            rw [hlkstep]
            simp [decBed, hicu]
          · right
            have hop : w.eqStr "OP" = true := by
              unfold hasCapacity at hcap2
              rw [if_neg hicu] at hcap2
              by_cases hop2 : w.eqStr "OP" = true
              · exact hop2
              · rw [if_neg hop2] at hcap2
                cases hcap2
            refine ⟨eqStr_eq hop, ?_⟩
            rw [hlkstep]
            simp [decBed, hicu]
        · intro n hn
          rw [hstep]
          exact lookupReg_update_other s.hospitals t w n hn
  · intro hact
    show authorize_current s = s
    unfold authorize_current
    exact if_neg (by rw [hact]; simp)

/-- Witness for C2 at the concrete PENDING state and the authorize step. -/
theorem c2_active_only_via_authorize_witness :
    (sPending.mission.status ≠ Status.ACTIVE →
      (step sPending Op.authorize_current).mission.status = Status.ACTIVE →
      Op.authorize_current = Op.authorize_current ∧
      sPending.mission.status = Status.PENDING ∧
      ∃ t r w h,
        sPending.mission.target_hospital = some t ∧
        sPending.mission.ai_analysis = some (JVal.jobj r) ∧
        jLookup r "ward_need" = some w ∧
        lookupReg sPending.hospitals t = some h ∧
        ((w = JVal.jstr "ICU" ∧
            lookupReg (step sPending Op.authorize_current).hospitals t =
              some { h with icu_beds := h.icu_beds - 1 }) ∨
         (w = JVal.jstr "OP" ∧
            lookupReg (step sPending Op.authorize_current).hospitals t =
              some { h with op_beds := h.op_beds - 1 })) ∧
        (∀ n, n ≠ t →
          lookupReg (step sPending Op.authorize_current).hospitals n =
            lookupReg sPending.hospitals n)) ∧
    (sPending.mission.status = Status.ACTIVE →
      step sPending Op.authorize_current = sPending) :=
  c2_active_only_via_authorize sPending Op.authorize_current reach_sPending

/-! ### Claim C3 -/

instance : IsTotal (String × Hospital) (fun a b => a.2.dist ≤ b.2.dist) :=
  ⟨fun a b => le_total a.2.dist b.2.dist⟩

instance : IsTrans (String × Hospital) (fun a b => a.2.dist ≤ b.2.dist) :=
  ⟨fun _ _ _ hab hbc => le_trans hab hbc⟩

/-- A stable sort does not reorder elements whose keys are all related both
ways: filtering the sorted list by such a class equals filtering the input,
i.e. ties keep their input (registry-insertion) order. -/
theorem filter_insertionSort_eq {α : Type} (r : α → α → Prop) [DecidableRel r]
    (p : α → Bool) (l : List α)
    (hconst : ∀ a b, p a = true → p b = true → r a b) :
    (l.insertionSort r).filter p = l.filter p := by
  have h1 : (l.filter p).Pairwise r :=
    List.pairwise_of_forall_mem_list fun a ha b hb =>
      hconst a b (List.of_mem_filter ha) (List.of_mem_filter hb)
  have h2 : (l.filter p).Sublist (l.insertionSort r) :=
    List.sublist_insertionSort h1 (List.filter_sublist l)
  have h3 : ((l.filter p).filter p).Sublist ((l.insertionSort r).filter p) :=
    h2.filter p
  rw [List.filter_filter] at h3
  have h4 : l.filter (fun a => p a && p a) = l.filter p := by
    simp
  rw [h4] at h3
  have h5 : ((l.insertionSort r).filter p).Perm (l.filter p) :=
    (List.perm_insertionSort r l).filter p
  exact (h3.eq_of_length h5.length_eq.symm).symm

/-- C3: for every registry state and ward_need in ICU/OP,
`find_best_hospital` returns exactly the hospitals whose bed count for that
ward type is strictly positive, sorted non-decreasing by the static
distance field, with ties in registry-insertion order, and the empty list
(not an error) when no hospital qualifies. -/
theorem c3_find_candidates_spec (reg : List (String × Hospital)) (w : JVal)
    (hw : w = JVal.jstr "ICU" ∨ w = JVal.jstr "OP") :
    (w = JVal.jstr "ICU" →
      ∀ p : String × Hospital,
        p ∈ find_best_hospital w reg ↔ p ∈ reg ∧ 0 < p.2.icu_beds) ∧
    (w = JVal.jstr "OP" →
      ∀ p : String × Hospital,
        p ∈ find_best_hospital w reg ↔ p ∈ reg ∧ 0 < p.2.op_beds) ∧
    (find_best_hospital w reg).Pairwise (fun a b => a.2.dist ≤ b.2.dist) ∧
    (∀ d : Int, (find_best_hospital w reg).filter (fun p => p.2.dist = d) =
      (reg.filter (hasCapacity w)).filter (fun p => p.2.dist = d)) ∧
    ((∀ p ∈ reg, hasCapacity w p = false) → find_best_hospital w reg = []) := by
  refine ⟨?_, ?_, ?_, ?_, ?_⟩
  · rintro rfl p
    unfold find_best_hospital
    rw [(List.perm_insertionSort _ _).mem_iff, List.mem_filter]
    simp [hasCapacity, JVal.eqStr]
  · rintro rfl p
    unfold find_best_hospital
    rw [(List.perm_insertionSort _ _).mem_iff, List.mem_filter]
    simp [hasCapacity, JVal.eqStr]
  · unfold find_best_hospital
    exact List.sorted_insertionSort _ _
  · intro d
    unfold find_best_hospital
    refine filter_insertionSort_eq _ _ _ ?_
    intro a b ha hb
    have h1 : a.2.dist = d := by simpa using ha
    have h2 : b.2.dist = d := by simpa using hb
    simp [h1, h2]
  · intro hnone
    unfold find_best_hospital
    have he : reg.filter (hasCapacity w) = [] :=
      List.filter_eq_nil.mpr fun a ha => by simp [hnone a ha]
    rw [he]
    rfl

/-- Witness for C3 on the initial registry with ward ICU. -/
theorem c3_find_candidates_spec_witness :
    ((JVal.jstr "ICU" : JVal) = JVal.jstr "ICU" →
      ∀ p : String × Hospital,
        p ∈ find_best_hospital (JVal.jstr "ICU") initHospitals ↔
          p ∈ initHospitals ∧ 0 < p.2.icu_beds) ∧
    ((JVal.jstr "ICU" : JVal) = JVal.jstr "OP" →
      ∀ p : String × Hospital,
        p ∈ find_best_hospital (JVal.jstr "ICU") initHospitals ↔
          p ∈ initHospitals ∧ 0 < p.2.op_beds) ∧
    (find_best_hospital (JVal.jstr "ICU") initHospitals).Pairwise
      (fun a b => a.2.dist ≤ b.2.dist) ∧
    (∀ d : Int,
      (find_best_hospital (JVal.jstr "ICU") initHospitals).filter
          (fun p => p.2.dist = d) =
        (initHospitals.filter (hasCapacity (JVal.jstr "ICU"))).filter
          (fun p => p.2.dist = d)) ∧
    ((∀ p ∈ initHospitals, hasCapacity (JVal.jstr "ICU") p = false) →
      find_best_hospital (JVal.jstr "ICU") initHospitals = []) :=
  c3_find_candidates_spec initHospitals (JVal.jstr "ICU") (Or.inl rfl)
